import Mathlib

/-!
Verification of the resilient external-integration layer of the
Tenant-SaaS-Platform repository: the circuit breaker
(apps/integrations/circuit_breaker.py), the webhook event store and
retry scheduling (apps/integrations/models.py,
apps/integrations/webhook_handlers.py, apps/integrations/tasks.py), and
the outbound API client (apps/integrations/external_apis.py).

The Python code is embedded shallowly: the Django cache entry backing a
circuit breaker becomes an `Option CBData`, database rows become Lean
structures collected in lists, `timezone.now()` becomes an explicit time
parameter, and raised exceptions become `Except` errors.  Timestamps used
by the circuit breaker are integers (seconds); times and float arithmetic
in the retry-backoff computation are rationals.
-/

namespace TenantSaaS

/-! ## Circuit breaker (apps/integrations/circuit_breaker.py) -/

/-- States of a circuit breaker, as stored in the cache entry
(`closed`, `open`, `half_open` in the source; `open` is a Lean keyword,
hence `open_`). -/
inductive CBState where
  | closed
  | open_
  | half_open
deriving DecidableEq, Repr

/-- The dictionary stored by `CircuitBreaker` under its cache key:
`{state, failure_count, last_failure_time}`. -/
structure CBData where
  state : CBState
  failure_count : Nat
  last_failure_time : Option Int
deriving DecidableEq, Repr

/-- Constructor parameters of `CircuitBreaker.__init__`: `threshold`
(failures before opening) and `timeout` (seconds before an open circuit
may probe again). -/
structure CBConfig where
  threshold : Nat
  timeout : Nat
deriving DecidableEq, Repr

namespace CircuitBreaker

/-- Property `CircuitBreaker.state`: absence of the cache entry means
`closed`. -/
def state : Option CBData → CBState
  | none => CBState.closed
  | some d => d.state

/-- Property `CircuitBreaker.failure_count`: absence of the cache entry
means `0`. -/
def failure_count : Option CBData → Nat
  | none => 0
  | some d => d.failure_count

/-- Property `CircuitBreaker.last_failure_time`: absence of the cache
entry means `None`. -/
def last_failure_time : Option CBData → Option Int
  | none => none
  | some d => d.last_failure_time

/-- Method `CircuitBreaker._should_attempt_reset` at current time `t`:
true when a cache entry with a last failure time exists and at least
`timeout` seconds have elapsed since it. -/
def should_attempt_reset (cfg : CBConfig) (c : Option CBData) (t : Int) : Bool :=
  match c with
  | none => false
  | some d =>
    match d.last_failure_time with
    | none => false
    | some lf => decide ((cfg.timeout : Int) ≤ t - lf)

/-- Method `CircuitBreaker._set_half_open`: store `half_open`, keeping the
current failure count and last failure time. -/
def set_half_open (c : Option CBData) : Option CBData :=
  some { state := CBState.half_open,
         failure_count := failure_count c,
         last_failure_time := last_failure_time c }

/-- Method `CircuitBreaker._on_success`: in `half_open` delete the cache
entry (reset to closed), in `closed` store a zeroed entry; otherwise the
entry is left as is (that branch is unreachable from `call`). -/
def on_success (c : Option CBData) : Option CBData :=
  if state c = CBState.half_open then none
  else if state c = CBState.closed then
    some { state := CBState.closed, failure_count := 0, last_failure_time := none }
  else c

/-- Method `CircuitBreaker._on_failure` at current time `t`: increment the
failure count, stamp the failure time, and open the circuit when the
count reaches `threshold` or the previous state was `half_open`. -/
def on_failure (cfg : CBConfig) (c : Option CBData) (t : Int) : Option CBData :=
  let d := c.getD { state := CBState.closed, failure_count := 0, last_failure_time := none }
  let fc := d.failure_count + 1
  let st :=
    if cfg.threshold ≤ fc then CBState.open_
    else if d.state = CBState.half_open then CBState.open_
    else d.state
  some { state := st, failure_count := fc, last_failure_time := some t }

/-- Outcome of one `CircuitBreaker.call`: the wrapped operation was not
invoked and `CircuitBreakerOpenError` was raised, or it was invoked and
succeeded, or it was invoked and its exception was re-raised. -/
inductive CallOutcome where
  | circuitOpen
  | success
  | failure
deriving DecidableEq, Repr

/-- Observable result of one `CircuitBreaker.call`: the outcome, how many
times the wrapped operation ran, the breaker state at the moment it ran
(if it ran), and the cache entry afterwards. -/
structure CallResult where
  outcome : CallOutcome
  invocations : Nat
  stateAtInvoke : Option CBState
  cache : Option CBData
deriving DecidableEq, Repr

/-- The `try` body of `CircuitBreaker.call`: run the operation once
(`opOk` is whether it succeeds), then `_on_success` or `_on_failure`. -/
def exec (cfg : CBConfig) (c : Option CBData) (t : Int) (opOk : Bool) : CallResult :=
  if opOk then
    { outcome := CallOutcome.success, invocations := 1,
      stateAtInvoke := some (state c), cache := on_success c }
  else
    { outcome := CallOutcome.failure, invocations := 1,
      stateAtInvoke := some (state c), cache := on_failure cfg c t }

/-- Method `CircuitBreaker.call` at current time `t`: if the state is
`open`, either transition to `half_open` (when `_should_attempt_reset`)
and proceed, or raise `CircuitBreakerOpenError` without invoking the
operation; otherwise invoke the operation. -/
def call (cfg : CBConfig) (c : Option CBData) (t : Int) (opOk : Bool) : CallResult :=
  if state c = CBState.open_ then
    if should_attempt_reset cfg c t then
      exec cfg (set_half_open c) t opOk
    else
      { outcome := CircuitBreaker.CallOutcome.circuitOpen, invocations := 0,
        stateAtInvoke := none, cache := c }
  else
    exec cfg c t opOk

/-- Method `CircuitBreaker.force_open` at time `t`: store an `open` entry
with `failure_count = threshold`. -/
def force_open (cfg : CBConfig) (t : Int) : Option CBData :=
  some { state := CBState.open_, failure_count := cfg.threshold,
         last_failure_time := some t }

/-- Method `CircuitBreaker.force_close`: delete the cache entry. -/
def force_close : Option CBData := none

end CircuitBreaker

/-- One operation applied to a circuit breaker: a guarded call at time `t`
whose wrapped operation succeeds or fails, a `force_open`, or a
`force_close`. -/
inductive CBEvent where
  | call (t : Int) (opOk : Bool)
  | forceOpen (t : Int)
  | forceClose
deriving DecidableEq, Repr

/-- Effect of one `CBEvent` on the cache entry. -/
def CBEvent.apply (cfg : CBConfig) (c : Option CBData) : CBEvent → Option CBData
  | CBEvent.call t opOk => (CircuitBreaker.call cfg c t opOk).cache
  | CBEvent.forceOpen t => CircuitBreaker.force_open cfg t
  | CBEvent.forceClose => CircuitBreaker.force_close

/-- Cache entry reached from the initial (absent) entry by a sequence of
circuit-breaker operations. -/
def runCBEvents (cfg : CBConfig) (evs : List CBEvent) : Option CBData :=
  evs.foldl (fun c e => e.apply cfg c) none

/-- Cache entry after a sequence of calls whose wrapped operation fails,
at the given times. -/
def failTimes (cfg : CBConfig) (c : Option CBData) (ts : List Int) : Option CBData :=
  ts.foldl (fun c t => (CircuitBreaker.call cfg c t false).cache) c

/-- Strengthened invariant for the reachability proof: whenever the stored
state is `open` or `half_open`, the stored failure count has reached the
threshold. -/
def CBInv (cfg : CBConfig) (c : Option CBData) : Prop :=
  (CircuitBreaker.state c = CBState.open_ ∨ CircuitBreaker.state c = CBState.half_open) →
    cfg.threshold ≤ CircuitBreaker.failure_count c

/-! ## Webhook data model (apps/integrations/models.py) -/

/-- Minimal JSON values: webhook payloads are Python dicts whose fields
are read with `.get`. -/
inductive JsonVal where
  | null
  | str (s : String)
  | obj (fields : List (String × JsonVal))
deriving Repr

/-- Python `dict.get(k)` (defaulting to `None`). -/
def JsonVal.get : JsonVal → String → Option JsonVal
  | JsonVal.obj fields, k =>
    match fields.find? (fun p => p.1 = k) with
    | some p => some p.2
    | none => none
  | _, _ => none

/-- Read a string field with `.get`: `None` when absent or not a string. -/
def JsonVal.getStr (j : JsonVal) (k : String) : Option String :=
  match j.get k with
  | some (JsonVal.str s) => some s
  | _ => none

/-- Python `dict.get(k, {})`. -/
def JsonVal.getObjD (j : JsonVal) (k : String) : JsonVal :=
  (j.get k).getD (JsonVal.obj [])

/-- Python `str()` of an optional string, as used in f-strings:
`None` prints as `"None"`. -/
def pyStr : Option String → String
  | none => "None"
  | some s => s

/-- The `status` choices of a `WebhookEvent`. -/
inductive WStatus where
  | pending
  | processing
  | completed
  | failed
  | retry
deriving DecidableEq, Repr

/-- An `IntegrationProvider` row, restricted to the fields the core logic
reads: its name and its retry policy (`max_retries`,
`backoff_multiplier`, `max_backoff_seconds`).  The `FloatField`
multiplier is embedded as a rational. -/
structure IntegrationProviderRec where
  name : String
  max_retries : Nat
  backoff_multiplier : ℚ
  max_backoff_seconds : Nat
deriving DecidableEq, Repr

/-- A `WebhookEvent` row.  `pk` stands for the UUID primary key `id`;
`history` is a ghost field recording every status stored by a `save()`,
so that the state-machine trace of the row is observable. -/
structure WebhookEventRec where
  pk : Nat
  provider_name : String
  event_type : Option String
  event_id : Option String
  organization_id : Option String
  data : JsonVal
  metadata : JsonVal
  source_ip : Option String
  headers : List (String × String)
  status : WStatus
  retry_count : Nat
  error_message : String
  processed_at : Option ℚ
  next_retry_at : Option ℚ
  history : List WStatus
deriving Repr

/-- Method `WebhookEvent.mark_processing`. -/
def WebhookEventRec.mark_processing (e : WebhookEventRec) : WebhookEventRec :=
  { e with status := WStatus.processing,
           history := e.history ++ [WStatus.processing] }

/-- Method `WebhookEvent.mark_completed` at current time `now`. -/
def WebhookEventRec.mark_completed (e : WebhookEventRec) (now : ℚ) : WebhookEventRec :=
  { e with status := WStatus.completed, processed_at := some now,
           history := e.history ++ [WStatus.completed] }

/-- Method `WebhookEvent.mark_failed` at current time `now`. -/
def WebhookEventRec.mark_failed (e : WebhookEventRec) (msg : String) (now : ℚ) : WebhookEventRec :=
  { e with status := WStatus.failed, error_message := msg, processed_at := some now,
           history := e.history ++ [WStatus.failed] }

/-- The exponential-backoff delay used by `schedule_retry` for the retry
whose (already incremented) count is `k`:
`min(backoff_multiplier ** k, max_backoff_seconds)`. -/
def backoffDelay (p : IntegrationProviderRec) (k : Nat) : ℚ :=
  min (p.backoff_multiplier ^ k) ((p.max_backoff_seconds : ℚ))

/-- Method `WebhookEvent.schedule_retry` at current time `now`; `p` is the
event's `provider` row.  Returns the Python return value together with
the updated row. -/
def WebhookEventRec.schedule_retry (e : WebhookEventRec) (p : IntegrationProviderRec)
    (now : ℚ) : Bool × WebhookEventRec :=
  if e.retry_count < p.max_retries then
    let rc := e.retry_count + 1
    let backoff_seconds := min (p.backoff_multiplier ^ rc) ((p.max_backoff_seconds : ℚ))
    (true, { e with retry_count := rc, status := WStatus.retry,
                    next_retry_at := some (now + backoff_seconds),
                    history := e.history ++ [WStatus.retry] })
  else
    (false, e.mark_failed "Max retries exceeded" now)

/-! ## Webhook processing (apps/integrations/webhook_handlers.py and
apps/integrations/tasks.py) -/

/-- Python exceptions observed by the webhook code paths. -/
inductive PyError where
  | doesNotExist (msg : String)
  | attributeError (msg : String)
  | integrityError (msg : String)
deriving DecidableEq, Repr

/-- Python `str(e)` on the exceptions above. -/
def PyError.toStr : PyError → String
  | PyError.doesNotExist m => m
  | PyError.attributeError m => m
  | PyError.integrityError m => m

/-- The transport metadata of an HTTP request object (`request.META`,
`request.headers`). -/
structure RequestInfo where
  remote_addr : Option String
  headers : List (String × String)
deriving DecidableEq, Repr

/-- The persistence state the webhook code paths touch: the
`IntegrationProvider` and `WebhookEvent` tables, plus the next fresh
primary key. -/
structure WebhookStore where
  providers : List IntegrationProviderRec
  events : List WebhookEventRec
  nextPk : Nat
deriving Repr

/-- `IntegrationProvider.objects.get(name=...)`: raises `DoesNotExist`
when no row matches. -/
def getProvider (st : WebhookStore) (name : String) : Except PyError IntegrationProviderRec :=
  match st.providers.find? (fun p => p.name = name) with
  | some p => Except.ok p
  | none => Except.error (PyError.doesNotExist ("IntegrationProvider matching query does not exist: " ++ name))

/-- Persist an updated `WebhookEvent` row (`save()` on an existing row). -/
def saveEvent (st : WebhookStore) (e : WebhookEventRec) : WebhookStore :=
  { st with events := st.events.map (fun x => if x.pk = e.pk then e else x) }

/-- Outcome environment for the provider-specific domain handlers
(`_handle_user_created`, `_handle_subscription_created`, ...).  Per the
design, these are external collaborators of the processor: only their
success (`ok` with a result dict) or failure (`error` with the exception
text) matters to the state machine, so they are abstracted as a function
from the event type and its `data` to that outcome. -/
def ServiceHandlers : Type := String → JsonVal → Except String JsonVal

/-- The event types dispatched by `handle_user_service_webhook`. -/
def userServiceEventTypes : List String :=
  ["user.created", "user.updated", "user.deleted", "user.activated", "user.deactivated"]

/-- The event types dispatched by `handle_payment_service_webhook`. -/
def paymentServiceEventTypes : List String :=
  ["subscription.created", "subscription.updated", "subscription.canceled",
   "payment.succeeded", "payment.failed"]

/-- The event types dispatched by `handle_communication_service_webhook`. -/
def communicationServiceEventTypes : List String :=
  ["message.delivered", "message.bounced", "message.clicked", "message.opened"]

/-- The `if event_type == ... / elif ... / else raise ValueError` dispatch
chain shared by the three webhook handler functions: run the domain
handler when the type is in the provider's table, otherwise raise
`ValueError: Unknown event type: ...`. -/
def dispatchEvent (table : List String) (H : ServiceHandlers)
    (event_type : Option String) (data : JsonVal) : Except String JsonVal :=
  match event_type with
  | some et =>
    if et ∈ table then H et data
    else Except.error ("Unknown event type: " ++ et)
  | none => Except.error ("Unknown event type: " ++ pyStr none)

/-- The dict returned by the webhook handler functions:
`{status, message}`. -/
structure WebhookResponse where
  status : String
  message : String
deriving DecidableEq, Repr

/-- The `try` block of the webhook handler functions (mark processing,
dispatch, then mark completed, or mark failed and attempt
`schedule_retry`), acting on the freshly created row `ev`. -/
def processCreatedEvent (table : List String) (H : ServiceHandlers)
    (provider : IntegrationProviderRec) (now : ℚ) (event_data : JsonVal)
    (ev : WebhookEventRec) : WebhookResponse × WebhookEventRec :=
  let ev := ev.mark_processing
  let event_type := event_data.getStr "event_type"
  match dispatchEvent table H event_type (event_data.getObjD "data") with
  | Except.ok _ =>
    let ev := ev.mark_completed now
    ({ status := "success", message := "Processed " ++ pyStr event_type }, ev)
  | Except.error emsg =>
    let ev := ev.mark_failed emsg now
    match ev.schedule_retry provider now with
    | (true, ev) => ({ status := "retry_scheduled", message := "Event scheduled for retry" }, ev)
    | (false, ev) => ({ status := "failed", message := emsg }, ev)

/-- The common shape of `handle_user_service_webhook`,
`handle_payment_service_webhook` and
`handle_communication_service_webhook`, which are textually identical up
to provider name and dispatch table: look up the provider, create the
`WebhookEvent` row (evaluating `request.META` — an `AttributeError` when
`request` is `None`, and an `IntegrityError` from the `unique=True`
constraint on `event_id` when a row with that `event_id` exists), then
run the `try` block.  The successive `save()` calls on the new row are
folded into appending its final state, with `history` recording each
saved status. -/
def handle_service_webhook (provider_name : String) (table : List String)
    (H : ServiceHandlers) (now : ℚ) (st : WebhookStore) (event_data : JsonVal)
    (request : Option RequestInfo) : Except PyError (WebhookResponse × WebhookStore) := do
  let provider ← getProvider st provider_name
  let r ← match request with
    | none => Except.error (PyError.attributeError "NoneType object has no attribute META")
    | some r => Except.ok r
  let event_id := event_data.getStr "event_id"
  if st.events.any (fun e => e.event_id = event_id) then
    Except.error (PyError.integrityError "duplicate key value violates unique constraint webhook_events_event_id_key")
  else
    let ev : WebhookEventRec :=
      { pk := st.nextPk, provider_name := provider.name,
        event_type := event_data.getStr "event_type", event_id := event_id,
        organization_id := event_data.getStr "organization_id",
        data := event_data.getObjD "data", metadata := event_data.getObjD "metadata",
        source_ip := r.remote_addr, headers := r.headers,
        status := WStatus.pending, retry_count := 0, error_message := "",
        processed_at := none, next_retry_at := none, history := [WStatus.pending] }
    let (resp, evFinal) := processCreatedEvent table H provider now event_data ev
    Except.ok (resp, { st with events := st.events ++ [evFinal], nextPk := st.nextPk + 1 })

/-- `handle_user_service_webhook`. -/
def handle_user_service_webhook (H : ServiceHandlers) (now : ℚ) (st : WebhookStore)
    (event_data : JsonVal) (request : Option RequestInfo) :
    Except PyError (WebhookResponse × WebhookStore) :=
  handle_service_webhook "user_service" userServiceEventTypes H now st event_data request

/-- `handle_payment_service_webhook`. -/
def handle_payment_service_webhook (H : ServiceHandlers) (now : ℚ) (st : WebhookStore)
    (event_data : JsonVal) (request : Option RequestInfo) :
    Except PyError (WebhookResponse × WebhookStore) :=
  handle_service_webhook "payment_service" paymentServiceEventTypes H now st event_data request

/-- `handle_communication_service_webhook`. -/
def handle_communication_service_webhook (H : ServiceHandlers) (now : ℚ) (st : WebhookStore)
    (event_data : JsonVal) (request : Option RequestInfo) :
    Except PyError (WebhookResponse × WebhookStore) :=
  handle_service_webhook "communication_service" communicationServiceEventTypes H now st event_data request

/-- The Celery task decorator argument `max_retries=3` on
`process_webhook_event`. -/
def celery_max_retries : Nat := 3

/-- Result of one invocation of the `process_webhook_event` task: it
either finishes or re-raises via `self.retry(countdown=2 ** retries)`. -/
inductive TaskOutcome where
  | done
  | retryRequested (countdown : Nat)
deriving DecidableEq, Repr

/-- Task `process_webhook_event` (tasks.py): load the event by primary
key (`DoesNotExist` is only logged), route to the provider's webhook
handler with `request = None`, mark unknown providers failed; any raised
exception triggers a Celery retry with exponential countdown until
`max_retries`, after which the event is marked failed with
`Max retries exceeded: ...`. -/
def process_webhook_event (H : ServiceHandlers) (now : ℚ) (st : WebhookStore)
    (pk : Nat) (retries : Nat) : TaskOutcome × WebhookStore :=
  match st.events.find? (fun e => e.pk = pk) with
  | none => (TaskOutcome.done, st)
  | some ev =>
    let run : Except PyError (WebhookResponse × WebhookStore) :=
      if ev.provider_name = "user_service" then
        handle_user_service_webhook H now st ev.data none
      else if ev.provider_name = "payment_service" then
        handle_payment_service_webhook H now st ev.data none
      else if ev.provider_name = "communication_service" then
        handle_communication_service_webhook H now st ev.data none
      else
        Except.ok ({ status := "failed", message := "Unknown provider: " ++ ev.provider_name },
                   saveEvent st (ev.mark_failed ("Unknown provider: " ++ ev.provider_name) now))
    match run with
    | Except.ok (_, st') => (TaskOutcome.done, st')
    | Except.error e =>
      if retries < celery_max_retries then
        (TaskOutcome.retryRequested (2 ^ retries), st)
      else
        match st.events.find? (fun x => x.pk = pk) with
        | some ev2 =>
          (TaskOutcome.done, saveEvent st (ev2.mark_failed ("Max retries exceeded: " ++ e.toStr) now))
        | none => (TaskOutcome.done, st)

/-- Drive `process_webhook_event` the way the Celery worker does: rerun
the task with an incremented retry counter while it requests a retry,
with enough fuel for the retry budget. -/
def runTaskWithRetries (H : ServiceHandlers) (now : ℚ) (pk : Nat) :
    Nat → Nat → WebhookStore → WebhookStore
  | _, 0, st => st
  | retries, fuel+1, st =>
    match process_webhook_event H now st pk retries with
    | (TaskOutcome.done, st') => st'
    | (TaskOutcome.retryRequested _, st') => runTaskWithRetries H now pk (retries+1) fuel st'

/-- A webhook event submitted to `process_webhook_event` and driven to
completion through the Celery retry loop. -/
def process_webhook_event_driver (H : ServiceHandlers) (now : ℚ) (pk : Nat)
    (st : WebhookStore) : WebhookStore :=
  runTaskWithRetries H now pk 0 (celery_max_retries + 1) st

/-! ## Outbound API client (apps/integrations/external_apis.py) -/

/-- The `status` choices of an `ExternalAPICall` row. -/
inductive APICallStatus where
  | pending
  | in_progress
  | completed
  | failed
deriving DecidableEq, Repr

/-- Python `int()` applied to a rational (truncation toward zero), used
for `duration_ms`. -/
def pyInt (q : ℚ) : Int := q.num / (q.den : Int)

/-- An `ExternalAPICall` row, restricted to the fields the core logic
writes. -/
structure APICallRec where
  pk : Nat
  provider_name : String
  endpoint : String
  method : String
  status : APICallStatus
  started_at : ℚ
  completed_at : Option ℚ
  duration_ms : Option Int
  response_status : Option Nat
  error_message : String
deriving DecidableEq, Repr

/-- Method `ExternalAPICall.mark_in_progress`. -/
def APICallRec.mark_in_progress (a : APICallRec) : APICallRec :=
  { a with status := APICallStatus.in_progress }

/-- Method `ExternalAPICall.mark_completed` at current time `now`:
`duration_ms = int((completed_at - started_at).total_seconds() * 1000)`. -/
def APICallRec.mark_completed (a : APICallRec) (stat : Nat) (now : ℚ) : APICallRec :=
  { a with status := APICallStatus.completed, completed_at := some now,
           duration_ms := some (pyInt ((now - a.started_at) * 1000)),
           response_status := some stat }

/-- Method `ExternalAPICall.mark_failed` at current time `now`. -/
def APICallRec.mark_failed (a : APICallRec) (msg : String) (now : ℚ) : APICallRec :=
  { a with status := APICallStatus.failed, completed_at := some now,
           duration_ms := some (pyInt ((now - a.started_at) * 1000)),
           error_message := msg }

/-- Result of the underlying network call: an HTTP response with a status
code and JSON body, or a raised transport exception (connection error,
timeout). -/
inductive NetResult where
  | response (stat : Nat) (body : JsonVal)
  | exn (msg : String)

/-- `response.raise_for_status()` followed by `response.json()`: raises
for transport errors and for 4xx/5xx status codes. -/
def raise_for_status : NetResult → Except String (JsonVal × Nat)
  | NetResult.exn msg => Except.error msg
  | NetResult.response stat body =>
    if 400 ≤ stat then Except.error ("HTTP error " ++ toString stat ++ " for url")
    else Except.ok (body, stat)

/-- The shared-cache and call-record state touched by the outbound
client: the Django cache holding circuit-breaker entries keyed by
breaker name, the `ExternalAPICall` table, and the next fresh primary
key. -/
structure APISysState where
  cbCache : List (String × CBData)
  apiCalls : List APICallRec
  nextPk : Nat
deriving DecidableEq, Repr

/-- `cache.get` for a circuit-breaker key. -/
def cacheGet (cache : List (String × CBData)) (k : String) : Option CBData :=
  match cache.find? (fun p => p.1 = k) with
  | some p => some p.2
  | none => none

/-- Write back a circuit-breaker entry: `cache.set` for a present value,
`cache.delete` for an absent one. -/
def cachePut (cache : List (String × CBData)) (k : String) :
    Option CBData → List (String × CBData)
  | none => cache.filter (fun p => ¬ p.1 = k)
  | some d => (k, d) :: cache.filter (fun p => ¬ p.1 = k)

/-- Errors propagated to the caller of `make_request`:
`CircuitBreakerOpenError`, or the underlying request failure re-raised
unchanged. -/
inductive APIError where
  | circuitBreakerOpen (provider_name : String)
  | upstream (msg : String)
deriving DecidableEq, Repr

/-- The breaker name hardcoded in the decorator
`@circuit_breaker(provider_name='external_api', threshold=3, timeout=60)`
on `ExternalAPIClient.make_request`.  Note that it is a fixed string, not
the client instance's `provider_name`; the per-provider
`self.circuit_breaker` built in `__init__` is never used by
`make_request`. -/
def external_api_breaker_name : String := "external_api"

/-- The breaker parameters hardcoded in the decorator on `make_request`. -/
def external_api_breaker_cfg : CBConfig := { threshold := 3, timeout := 60 }

/-- The undecorated body of `ExternalAPIClient.make_request`: create the
`ExternalAPICall` row, mark it in progress, perform the network call,
and finalize the row as completed or failed; the error is re-raised.
`startT`/`endT` are the row's creation and finalization times. -/
def make_request_inner (client_provider base_url : String) (startT endT : ℚ)
    (method endpoint : String) (net : NetResult) (st : APISysState) :
    Except String JsonVal × APISysState :=
  let api_call : APICallRec :=
    { pk := st.nextPk, provider_name := client_provider,
      endpoint := base_url ++ endpoint, method := method,
      status := APICallStatus.pending, started_at := startT, completed_at := none,
      duration_ms := none, response_status := none, error_message := "" }
  let api_call := api_call.mark_in_progress
  match raise_for_status net with
  | Except.ok (body, stat) =>
    let api_call := api_call.mark_completed stat endT
    (Except.ok body,
     { st with apiCalls := st.apiCalls ++ [api_call], nextPk := st.nextPk + 1 })
  | Except.error msg =>
    let api_call := api_call.mark_failed msg endT
    (Except.error msg,
     { st with apiCalls := st.apiCalls ++ [api_call], nextPk := st.nextPk + 1 })

/-- The `try` body of `CircuitBreaker.call` as it wraps `make_request`:
run the inner request with breaker entry `c`, then `_on_success` or
`_on_failure` on the shared cache key. -/
def make_request_exec (client_provider base_url : String) (cfg : CBConfig) (key : String)
    (t : Int) (startT endT : ℚ) (method endpoint : String) (net : NetResult)
    (c : Option CBData) (st : APISysState) : Except APIError JsonVal × APISysState :=
  match make_request_inner client_provider base_url startT endT method endpoint net st with
  | (Except.ok body, st') =>
    (Except.ok body,
     { st' with cbCache := cachePut st'.cbCache key (CircuitBreaker.on_success c) })
  | (Except.error msg, st') =>
    (Except.error (APIError.upstream msg),
     { st' with cbCache := cachePut st'.cbCache key (CircuitBreaker.on_failure cfg c t) })

/-- `ExternalAPIClient.make_request` as decorated: the call is gated by
the circuit breaker named `external_api` shared by every client, raising
`CircuitBreakerOpenError` (before any `ExternalAPICall` row is created)
when that breaker is open inside its timeout window.  `t` is the breaker
clock. -/
def make_request (client_provider base_url : String) (t : Int) (startT endT : ℚ)
    (method endpoint : String) (net : NetResult) (st : APISysState) :
    Except APIError JsonVal × APISysState :=
  let cfg := external_api_breaker_cfg
  let key := external_api_breaker_name
  let c0 := cacheGet st.cbCache key
  if CircuitBreaker.state c0 = CBState.open_ then
    if CircuitBreaker.should_attempt_reset cfg c0 t then
      make_request_exec client_provider base_url cfg key t startT endT method endpoint net
        (CircuitBreaker.set_half_open c0) st
    else
      (Except.error (APIError.circuitBreakerOpen key), st)
  else
    make_request_exec client_provider base_url cfg key t startT endT method endpoint net c0 st

/-! ## Concrete fixtures used to evaluate the model -/

/-- A `user_service` provider row with the schema defaults
(`max_retries=3`, `backoff_multiplier=2.0`, `max_backoff_seconds=300`). -/
def sampleProvider : IntegrationProviderRec :=
  { name := "user_service", max_retries := 3, backoff_multiplier := 2,
    max_backoff_seconds := 300 }

/-- A provider row whose `backoff_multiplier` is below one (the
`FloatField` has no validator preventing this). -/
def halfBackoffProvider : IntegrationProviderRec :=
  { name := "user_service", max_retries := 3, backoff_multiplier := 1/2,
    max_backoff_seconds := 300 }

/-- A freshly ingested webhook event row. -/
def sampleEvent : WebhookEventRec :=
  { pk := 0, provider_name := "user_service", event_type := some "user.created",
    event_id := some "evt-1", organization_id := none, data := JsonVal.obj [],
    metadata := JsonVal.obj [], source_ip := none, headers := [],
    status := WStatus.pending, retry_count := 0, error_message := "",
    processed_at := none, next_retry_at := none, history := [WStatus.pending] }

/-- A webhook event row whose retries are exhausted
(`retry_count = max_retries = 3`). -/
def sampleMaxedEvent : WebhookEventRec :=
  { pk := 0, provider_name := "user_service", event_type := some "user.created",
    event_id := some "evt-1", organization_id := none, data := JsonVal.obj [],
    metadata := JsonVal.obj [], source_ip := none, headers := [],
    status := WStatus.retry, retry_count := 3, error_message := "",
    processed_at := none, next_retry_at := none,
    history := [WStatus.pending, WStatus.processing, WStatus.failed, WStatus.retry] }

/-- A payload whose `event_type` is unknown to the user service. -/
def unknownTypePayload : JsonVal :=
  JsonVal.obj [("event_type", JsonVal.str "user.unknown"),
               ("event_id", JsonVal.str "evt-7")]

/-- A store holding only the `user_service` provider. -/
def sampleStore : WebhookStore :=
  { providers := [sampleProvider], events := [], nextPk := 0 }

/-- Transport metadata of a live HTTP request. -/
def sampleRequest : RequestInfo := { remote_addr := some "10.0.0.1", headers := [] }

/-- A handler environment in which every domain handler succeeds. -/
def trivialHandlers : ServiceHandlers := fun _ _ => Except.ok JsonVal.null

/-- A stored webhook event carrying `event_id = "evt-7"`. -/
def sampleStoredEvent : WebhookEventRec :=
  { pk := 0, provider_name := "user_service", event_type := some "user.created",
    event_id := some "evt-7", organization_id := none, data := JsonVal.obj [],
    metadata := JsonVal.obj [], source_ip := none, headers := [],
    status := WStatus.completed, retry_count := 0, error_message := "",
    processed_at := some 50, next_retry_at := none,
    history := [WStatus.pending, WStatus.processing, WStatus.completed] }

/-- A store already holding an event with `event_id = "evt-7"`. -/
def dupStore : WebhookStore :=
  { providers := [sampleProvider], events := [sampleStoredEvent], nextPk := 1 }

/-- A successfully completed webhook event row, as left by a first
processing run. -/
def completedEvent : WebhookEventRec :=
  { pk := 1, provider_name := "user_service", event_type := some "user.created",
    event_id := some "evt-9", organization_id := none, data := JsonVal.obj [],
    metadata := JsonVal.obj [], source_ip := none, headers := [],
    status := WStatus.completed, retry_count := 0, error_message := "",
    processed_at := some 100, next_retry_at := none,
    history := [WStatus.pending, WStatus.processing, WStatus.completed] }

/-- A store holding the completed event above. -/
def completedEventStore : WebhookStore :=
  { providers := [sampleProvider], events := [completedEvent], nextPk := 2 }

/-- The shared-cache state after the `external_api` breaker has opened at
time 0. -/
def openBreakerState : APISysState :=
  { cbCache := [("external_api",
      { state := CBState.open_, failure_count := 3, last_failure_time := some 0 })],
    apiCalls := [], nextPk := 0 }

/-- The initial outbound-client state: empty cache, no call records. -/
def emptyAPIState : APISysState := { cbCache := [], apiCalls := [], nextPk := 0 }

/-- Base URL of the payment service client. -/
def paymentBase : String := "https://api.payments.com/v2"

/-- Base URL of the user service client. -/
def userBase : String := "https://api.userservice.com/v1"

/-! ## Theorems: circuit breaker -/

/-- Reading `state` from a present cache entry gives its `state` field. -/
theorem state_some (d : CBData) : CircuitBreaker.state (some d) = d.state := rfl

/-- Reading `failure_count` from a present cache entry gives its
`failure_count` field. -/
theorem failure_count_some (d : CBData) :
    CircuitBreaker.failure_count (some d) = d.failure_count := rfl

/-- Reading `last_failure_time` from a present cache entry gives its
`last_failure_time` field. -/
theorem last_failure_time_some (d : CBData) :
    CircuitBreaker.last_failure_time (some d) = d.last_failure_time := rfl

/-- A failing call from a `closed` breaker increments the failure count,
stamps the failure time, and opens the circuit exactly when the new count
reaches the threshold. -/
theorem call_fail_closed (cfg : CBConfig) (c : Option CBData) (t : Int)
    (hc : CircuitBreaker.state c = CBState.closed) :
    (CircuitBreaker.call cfg c t false).cache =
      some { state := if cfg.threshold ≤ CircuitBreaker.failure_count c + 1
                      then CBState.open_ else CBState.closed,
             failure_count := CircuitBreaker.failure_count c + 1,
             last_failure_time := some t } := by
  cases c with
  | none =>
    simp [CircuitBreaker.call, CircuitBreaker.state, CircuitBreaker.exec,
          CircuitBreaker.on_failure, CircuitBreaker.failure_count]
  | some d =>
    have hd : d.state = CBState.closed := hc
    simp [CircuitBreaker.call, CircuitBreaker.state, CircuitBreaker.exec,
          CircuitBreaker.on_failure, CircuitBreaker.failure_count, hd]

/-- Running a block of failing calls from a `closed` breaker whose budget
stays within the threshold yields the expected count, state and last
failure time. -/
theorem failTimes_closed (cfg : CBConfig) (ts : List Int) (tlast : Int) :
    ∀ c : Option CBData, CircuitBreaker.state c = CBState.closed →
      CircuitBreaker.failure_count c + ts.length + 1 ≤ cfg.threshold →
      failTimes cfg c (ts ++ [tlast]) =
        some { state := if cfg.threshold ≤ CircuitBreaker.failure_count c + ts.length + 1
                        then CBState.open_ else CBState.closed,
               failure_count := CircuitBreaker.failure_count c + ts.length + 1,
               last_failure_time := some tlast } := by
  induction ts with
  | nil =>
    intro c hc _
    have h1 := call_fail_closed cfg c tlast hc
    simpa [failTimes] using h1
  | cons t ts ih =>
    intro c hc hle
    have hstep := call_fail_closed cfg c t hc
    have hlt : ¬ cfg.threshold ≤ CircuitBreaker.failure_count c + 1 := by
      simp only [List.length_cons] at hle
      omega
    rw [if_neg hlt] at hstep
    have hunf : failTimes cfg c ((t :: ts) ++ [tlast]) =
        failTimes cfg ((CircuitBreaker.call cfg c t false).cache) (ts ++ [tlast]) := rfl
    rw [hunf, hstep]
    have hrec := ih (some { state := CBState.closed,
                            failure_count := CircuitBreaker.failure_count c + 1,
                            last_failure_time := some t }) rfl
      (by simp only [failure_count_some, List.length_cons] at hle ⊢; omega)
    simp only [failure_count_some] at hrec
    rw [hrec]
    have harith : CircuitBreaker.failure_count c + 1 + ts.length + 1 =
        CircuitBreaker.failure_count c + (t :: ts).length + 1 := by
      simp only [List.length_cons]; omega
    simp only [harith]

/-- C1: a breaker with parameters `threshold` and `timeout` opens after
`threshold` consecutive failing calls from the closed state; while open
and strictly inside the timeout window a call raises
`CircuitBreakerOpenError` without invoking the wrapped operation and
leaves the stored state untouched; once `timeout` seconds have elapsed
since the last failure, the call transitions to `half_open` first and
invokes the operation exactly once, and a successful probe leaves the
breaker reporting `closed` with `failure_count = 0`. -/
theorem C1_circuit_breaker_full_cycle (cfg : CBConfig) (ts : List Int) (tlast : Int)
    (hlen : ts.length + 1 = cfg.threshold)
    (t tprobe : Int) (opOk : Bool)
    (hbefore : t - tlast < (cfg.timeout : Int))
    (hafter : (cfg.timeout : Int) ≤ tprobe - tlast) :
    CircuitBreaker.state (failTimes cfg none (ts ++ [tlast])) = CBState.open_ ∧
    (CircuitBreaker.call cfg (failTimes cfg none (ts ++ [tlast])) t opOk).outcome =
      CircuitBreaker.CallOutcome.circuitOpen ∧
    (CircuitBreaker.call cfg (failTimes cfg none (ts ++ [tlast])) t opOk).invocations = 0 ∧
    (CircuitBreaker.call cfg (failTimes cfg none (ts ++ [tlast])) t opOk).cache =
      failTimes cfg none (ts ++ [tlast]) ∧
    (CircuitBreaker.call cfg (failTimes cfg none (ts ++ [tlast])) tprobe opOk).invocations = 1 ∧
    (CircuitBreaker.call cfg (failTimes cfg none (ts ++ [tlast])) tprobe opOk).stateAtInvoke =
      some CBState.half_open ∧
    CircuitBreaker.state (CircuitBreaker.call cfg (failTimes cfg none (ts ++ [tlast])) tprobe true).cache =
      CBState.closed ∧
    CircuitBreaker.failure_count (CircuitBreaker.call cfg (failTimes cfg none (ts ++ [tlast])) tprobe true).cache = 0 := by
  have hft : failTimes cfg none (ts ++ [tlast]) =
      some { state := CBState.open_, failure_count := cfg.threshold,
             last_failure_time := some tlast } := by
    have h1 := failTimes_closed cfg ts tlast none rfl
      (by simp [CircuitBreaker.failure_count]; omega)
    simp only [CircuitBreaker.failure_count, Nat.zero_add] at h1
    rw [hlen] at h1
    rw [if_pos (le_refl _)] at h1
    exact h1
  rw [hft]
  have hnot : ¬ ((cfg.timeout : Int) ≤ t - tlast) := by omega
  refine ⟨rfl, ?_, ?_, ?_, ?_, ?_, ?_, ?_⟩
  · simp [CircuitBreaker.call, CircuitBreaker.state, CircuitBreaker.should_attempt_reset, hnot]
  · simp [CircuitBreaker.call, CircuitBreaker.state, CircuitBreaker.should_attempt_reset, hnot]
  · simp [CircuitBreaker.call, CircuitBreaker.state, CircuitBreaker.should_attempt_reset, hnot]
  · cases opOk <;>
      simp [CircuitBreaker.call, CircuitBreaker.state, CircuitBreaker.should_attempt_reset,
            hafter, CircuitBreaker.exec]
  · cases opOk <;>
      simp [CircuitBreaker.call, CircuitBreaker.state, CircuitBreaker.should_attempt_reset,
            hafter, CircuitBreaker.exec, CircuitBreaker.set_half_open]
  · simp [CircuitBreaker.call, CircuitBreaker.state, CircuitBreaker.should_attempt_reset,
          hafter, CircuitBreaker.exec, CircuitBreaker.set_half_open, CircuitBreaker.on_success]
  · simp [CircuitBreaker.call, CircuitBreaker.state, CircuitBreaker.should_attempt_reset,
          hafter, CircuitBreaker.exec, CircuitBreaker.set_half_open, CircuitBreaker.on_success,
          CircuitBreaker.failure_count]

/-- Witness for C1 at the speced scenario `threshold = 3, timeout = 60`:
failures at times 0, 1, 2; a blocked call at time 30; a successful probe
at time 70. -/
theorem C1_witness :
    CircuitBreaker.state (failTimes ⟨3, 60⟩ none ([0, 1] ++ [2])) = CBState.open_ ∧
    (CircuitBreaker.call ⟨3, 60⟩ (failTimes ⟨3, 60⟩ none ([0, 1] ++ [2])) 30 true).outcome =
      CircuitBreaker.CallOutcome.circuitOpen ∧
    (CircuitBreaker.call ⟨3, 60⟩ (failTimes ⟨3, 60⟩ none ([0, 1] ++ [2])) 30 true).invocations = 0 ∧
    (CircuitBreaker.call ⟨3, 60⟩ (failTimes ⟨3, 60⟩ none ([0, 1] ++ [2])) 30 true).cache =
      failTimes ⟨3, 60⟩ none ([0, 1] ++ [2]) ∧
    (CircuitBreaker.call ⟨3, 60⟩ (failTimes ⟨3, 60⟩ none ([0, 1] ++ [2])) 70 true).invocations = 1 ∧
    (CircuitBreaker.call ⟨3, 60⟩ (failTimes ⟨3, 60⟩ none ([0, 1] ++ [2])) 70 true).stateAtInvoke =
      some CBState.half_open ∧
    CircuitBreaker.state (CircuitBreaker.call ⟨3, 60⟩ (failTimes ⟨3, 60⟩ none ([0, 1] ++ [2])) 70 true).cache =
      CBState.closed ∧
    CircuitBreaker.failure_count (CircuitBreaker.call ⟨3, 60⟩ (failTimes ⟨3, 60⟩ none ([0, 1] ++ [2])) 70 true).cache = 0 :=
  C1_circuit_breaker_full_cycle ⟨3, 60⟩ [0, 1] 2 (by decide) 30 70 true (by decide) (by decide)

/-- The invariant `CBInv` is preserved by `_on_success`. -/
theorem on_success_inv (cfg : CBConfig) (c : Option CBData) (h : CBInv cfg c) :
    CBInv cfg (CircuitBreaker.on_success c) := by
  unfold CircuitBreaker.on_success
  by_cases h1 : CircuitBreaker.state c = CBState.half_open
  · rw [if_pos h1]
    intro hst
    simp [CircuitBreaker.state] at hst
  · rw [if_neg h1]
    by_cases h2 : CircuitBreaker.state c = CBState.closed
    · rw [if_pos h2]
      intro hst
      simp [state_some] at hst
    · rw [if_neg h2]
      exact h

/-- The invariant `CBInv` is preserved by `_on_failure`. -/
theorem on_failure_inv (cfg : CBConfig) (c : Option CBData) (t : Int) (h : CBInv cfg c) :
    CBInv cfg (CircuitBreaker.on_failure cfg c t) := by
  intro hst
  cases c with
  | none =>
    by_cases hth : cfg.threshold ≤ 0 + 1
    · simpa [CircuitBreaker.on_failure, CircuitBreaker.failure_count] using hth
    · simp [CircuitBreaker.on_failure, CircuitBreaker.state, hth] at hst
  | some d =>
    by_cases hth : cfg.threshold ≤ d.failure_count + 1
    · simpa [CircuitBreaker.on_failure, CircuitBreaker.failure_count] using hth
    · cases hds : d.state with
      | closed =>
        simp [CircuitBreaker.on_failure, CircuitBreaker.state, hth, hds] at hst
      | open_ =>
        have := h (Or.inl (by simp [CircuitBreaker.state, hds]))
        simp only [CircuitBreaker.failure_count] at this
        simp [CircuitBreaker.on_failure, CircuitBreaker.failure_count]
        omega
      | half_open =>
        have := h (Or.inr (by simp [CircuitBreaker.state, hds]))
        simp only [CircuitBreaker.failure_count] at this
        simp [CircuitBreaker.on_failure, CircuitBreaker.failure_count]
        omega

/-- The invariant `CBInv` is preserved by `_set_half_open` when it is
applied to an open breaker, as `call` does. -/
theorem set_half_open_inv (cfg : CBConfig) (c : Option CBData)
    (hopen : CircuitBreaker.state c = CBState.open_) (h : CBInv cfg c) :
    CBInv cfg (CircuitBreaker.set_half_open c) := by
  intro _
  have h1 := h (Or.inl hopen)
  simpa [CircuitBreaker.set_half_open, CircuitBreaker.failure_count] using h1

/-- The invariant `CBInv` is preserved by the `try` body of `call`. -/
theorem exec_inv (cfg : CBConfig) (c : Option CBData) (t : Int) (opOk : Bool)
    (h : CBInv cfg c) : CBInv cfg ((CircuitBreaker.exec cfg c t opOk).cache) := by
  cases opOk with
  | false => simpa [CircuitBreaker.exec] using on_failure_inv cfg c t h
  | true => simpa [CircuitBreaker.exec] using on_success_inv cfg c h

/-- The invariant `CBInv` is preserved by `call`. -/
theorem call_inv (cfg : CBConfig) (c : Option CBData) (t : Int) (opOk : Bool)
    (h : CBInv cfg c) : CBInv cfg ((CircuitBreaker.call cfg c t opOk).cache) := by
  unfold CircuitBreaker.call
  by_cases h1 : CircuitBreaker.state c = CBState.open_
  · rw [if_pos h1]
    by_cases h2 : CircuitBreaker.should_attempt_reset cfg c t = true
    · rw [if_pos h2]
      exact exec_inv cfg _ t opOk (set_half_open_inv cfg c h1 h)
    · rw [if_neg h2]
      exact h
  · rw [if_neg h1]
    exact exec_inv cfg c t opOk h

/-- The invariant `CBInv` is preserved by every circuit-breaker event. -/
theorem cbevent_apply_inv (cfg : CBConfig) (c : Option CBData) (e : CBEvent)
    (h : CBInv cfg c) : CBInv cfg (CBEvent.apply cfg c e) := by
  cases e with
  | call t opOk => exact call_inv cfg c t opOk h
  | forceOpen t =>
    intro _
    simp [CBEvent.apply, CircuitBreaker.force_open, CircuitBreaker.failure_count]
  | forceClose =>
    intro hst
    simp [CBEvent.apply, CircuitBreaker.force_close, CircuitBreaker.state] at hst

/-- The invariant `CBInv` is preserved along any event sequence. -/
theorem runCBEvents_inv_aux (cfg : CBConfig) (evs : List CBEvent) :
    ∀ c : Option CBData, CBInv cfg c →
      CBInv cfg (evs.foldl (fun c e => e.apply cfg c) c) := by
  induction evs with
  | nil => intro c h; exact h
  | cons e evs ih => intro c h; exact ih _ (cbevent_apply_inv cfg c e h)

/-- C8: in every state reachable by any sequence of call successes, call
failures, `force_open` and `force_close` operations, if the stored state
is `open` then the stored failure count is at least the threshold. -/
theorem C8_open_state_requires_threshold_failures (cfg : CBConfig) (evs : List CBEvent)
    (h : CircuitBreaker.state (runCBEvents cfg evs) = CBState.open_) :
    cfg.threshold ≤ CircuitBreaker.failure_count (runCBEvents cfg evs) := by
  have h0 : CBInv cfg (none : Option CBData) := by
    intro hst
    simp [CircuitBreaker.state] at hst
  exact runCBEvents_inv_aux cfg evs none h0 (Or.inl h)

/-- Witness for C8: two failing calls with `threshold = 2` reach the open
state, where the failure count indeed meets the threshold. -/
theorem C8_witness :
    CircuitBreaker.state (runCBEvents ⟨2, 60⟩ [CBEvent.call 0 false, CBEvent.call 1 false]) =
      CBState.open_ ∧
    (2 : Nat) ≤ CircuitBreaker.failure_count
      (runCBEvents ⟨2, 60⟩ [CBEvent.call 0 false, CBEvent.call 1 false]) :=
  ⟨by decide, C8_open_state_requires_threshold_failures ⟨2, 60⟩
    [CBEvent.call 0 false, CBEvent.call 1 false] (by decide)⟩

/-- C10: a failed call handled while the breaker is closed, with the
incremented failure count still below the threshold, keeps the stored
state `closed` but updates `last_failure_time` to the current time and
increments `failure_count` by one. -/
theorem C10_closed_failure_records_time (cfg : CBConfig) (c : Option CBData) (t : Int)
    (hc : CircuitBreaker.state c = CBState.closed)
    (hlt : CircuitBreaker.failure_count c + 1 < cfg.threshold) :
    (CircuitBreaker.call cfg c t false).cache =
      some { state := CBState.closed,
             failure_count := CircuitBreaker.failure_count c + 1,
             last_failure_time := some t } ∧
    CircuitBreaker.state (CircuitBreaker.call cfg c t false).cache = CBState.closed ∧
    CircuitBreaker.last_failure_time (CircuitBreaker.call cfg c t false).cache = some t ∧
    CircuitBreaker.failure_count (CircuitBreaker.call cfg c t false).cache =
      CircuitBreaker.failure_count c + 1 := by
  have h1 := call_fail_closed cfg c t hc
  rw [if_neg (by omega)] at h1
  exact ⟨h1, by rw [h1]; rfl, by rw [h1]; rfl, by rw [h1]; rfl⟩

/-- Witness for C10: a single failure from the empty cache entry with
`threshold = 3` stays closed with `failure_count = 1` and a recorded
failure time. -/
theorem C10_witness :
    (CircuitBreaker.call ⟨3, 60⟩ none 5 false).cache =
      some { state := CBState.closed, failure_count := 1, last_failure_time := some 5 } ∧
    CircuitBreaker.state (CircuitBreaker.call ⟨3, 60⟩ none 5 false).cache = CBState.closed ∧
    CircuitBreaker.last_failure_time (CircuitBreaker.call ⟨3, 60⟩ none 5 false).cache = some 5 ∧
    CircuitBreaker.failure_count (CircuitBreaker.call ⟨3, 60⟩ none 5 false).cache = 0 + 1 :=
  C10_closed_failure_records_time ⟨3, 60⟩ none 5 rfl (by decide)

/-! ## Theorems: retry scheduling and backoff -/

/-- C3 (counterexample): with retries exhausted, `schedule_retry` returns
false and marks the event failed, but its stored message is
`Max retries exceeded`, not the lower-case `max retries exceeded` the
claim states. -/
theorem C3_counterexample :
    (sampleMaxedEvent.schedule_retry sampleProvider 5).1 = false ∧
    (sampleMaxedEvent.schedule_retry sampleProvider 5).2.status = WStatus.failed ∧
    (sampleMaxedEvent.schedule_retry sampleProvider 5).2.error_message = "Max retries exceeded" ∧
    ¬ (sampleMaxedEvent.schedule_retry sampleProvider 5).2.error_message = "max retries exceeded" := by
  refine ⟨rfl, rfl, rfl, ?_⟩
  decide

/-- C3 (amended): for an event with `retry_count ≤ max_retries`,
`schedule_retry` increments `retry_count`, sets status `retry`, sets
`next_retry_at = now + min(backoff_multiplier ^ retry_count,
max_backoff_seconds)` (with the incremented count) and returns true when
`retry_count < max_retries`; otherwise it marks the event terminally
failed with message `Max retries exceeded` (capital M) and returns
false; the stored `retry_count` never exceeds `max_retries`. -/
theorem C3_schedule_retry_amended (p : IntegrationProviderRec) (now : ℚ)
    (e : WebhookEventRec) (hle : e.retry_count ≤ p.max_retries) :
    (e.retry_count < p.max_retries →
      (e.schedule_retry p now).1 = true ∧
      (e.schedule_retry p now).2.retry_count = e.retry_count + 1 ∧
      (e.schedule_retry p now).2.status = WStatus.retry ∧
      (e.schedule_retry p now).2.next_retry_at =
        some (now + min (p.backoff_multiplier ^ (e.retry_count + 1))
          ((p.max_backoff_seconds : ℚ)))) ∧
    (¬ e.retry_count < p.max_retries →
      (e.schedule_retry p now).1 = false ∧
      (e.schedule_retry p now).2.status = WStatus.failed ∧
      (e.schedule_retry p now).2.error_message = "Max retries exceeded" ∧
      (e.schedule_retry p now).2.processed_at = some now ∧
      (e.schedule_retry p now).2.retry_count = e.retry_count) ∧
    (e.schedule_retry p now).2.retry_count ≤ p.max_retries := by
  by_cases h : e.retry_count < p.max_retries
  · refine ⟨fun _ => ?_, fun hc => absurd h hc, ?_⟩
    · simp [WebhookEventRec.schedule_retry, h]
    · simp [WebhookEventRec.schedule_retry, h]
      omega
  · refine ⟨fun hc => absurd hc h, fun _ => ?_, ?_⟩
    · simp [WebhookEventRec.schedule_retry, h, WebhookEventRec.mark_failed]
    · simp [WebhookEventRec.schedule_retry, h, WebhookEventRec.mark_failed]
      omega

/-- Witness for the amended C3 at a fresh event under the default policy. -/
theorem C3_witness :
    sampleEvent.retry_count ≤ sampleProvider.max_retries ∧
    ((sampleEvent.retry_count < sampleProvider.max_retries →
      (sampleEvent.schedule_retry sampleProvider 7).1 = true ∧
      (sampleEvent.schedule_retry sampleProvider 7).2.retry_count = sampleEvent.retry_count + 1 ∧
      (sampleEvent.schedule_retry sampleProvider 7).2.status = WStatus.retry ∧
      (sampleEvent.schedule_retry sampleProvider 7).2.next_retry_at =
        some (7 + min (sampleProvider.backoff_multiplier ^ (sampleEvent.retry_count + 1))
          ((sampleProvider.max_backoff_seconds : ℚ)))) ∧
    (¬ sampleEvent.retry_count < sampleProvider.max_retries →
      (sampleEvent.schedule_retry sampleProvider 7).1 = false ∧
      (sampleEvent.schedule_retry sampleProvider 7).2.status = WStatus.failed ∧
      (sampleEvent.schedule_retry sampleProvider 7).2.error_message = "Max retries exceeded" ∧
      (sampleEvent.schedule_retry sampleProvider 7).2.processed_at = some 7 ∧
      (sampleEvent.schedule_retry sampleProvider 7).2.retry_count = sampleEvent.retry_count) ∧
    (sampleEvent.schedule_retry sampleProvider 7).2.retry_count ≤ sampleProvider.max_retries) :=
  ⟨by decide, C3_schedule_retry_amended sampleProvider 7 sampleEvent (by decide)⟩

/-- C7 (counterexample): with `backoff_multiplier = 1/2` the delay of the
second retry (1/4 s) is strictly smaller than the delay of the first
retry (1/2 s), so the backoff is not monotonically non-decreasing as the
claim states for every provider policy. -/
theorem C7_counterexample :
    (sampleEvent.schedule_retry halfBackoffProvider 0).2.next_retry_at = some (1/2 : ℚ) ∧
    ((sampleEvent.schedule_retry halfBackoffProvider 0).2.schedule_retry
      halfBackoffProvider 0).2.next_retry_at = some (1/4 : ℚ) ∧
    ¬ ((1/2 : ℚ) ≤ (1/4 : ℚ)) := by
  refine ⟨?_, ?_, by norm_num⟩
  · simp [WebhookEventRec.schedule_retry, sampleEvent, halfBackoffProvider]
    norm_num
  · simp [WebhookEventRec.schedule_retry, sampleEvent, halfBackoffProvider]
    norm_num

/-- C7 (amended): when `backoff_multiplier ≥ 1`, the backoff delay is
monotonically non-decreasing in the retry number and always capped by
`max_backoff_seconds`; and `schedule_retry` indeed schedules retry
`retry_count + 1` at `now + backoffDelay`. -/
theorem C7_backoff_monotone_amended (p : IntegrationProviderRec)
    (hmul : 1 ≤ p.backoff_multiplier) (i j : Nat) (hij : i ≤ j)
    (e : WebhookEventRec) (now : ℚ) (he : e.retry_count < p.max_retries) :
    backoffDelay p i ≤ backoffDelay p j ∧
    backoffDelay p j ≤ (p.max_backoff_seconds : ℚ) ∧
    (e.schedule_retry p now).2.next_retry_at =
      some (now + backoffDelay p (e.retry_count + 1)) := by
  refine ⟨?_, min_le_right _ _, ?_⟩
  · exact min_le_min (pow_le_pow_right₀ hmul hij) (le_refl _)
  · simp [WebhookEventRec.schedule_retry, he, backoffDelay]

/-- Witness for the amended C7 under the default policy
(`backoff_multiplier = 2`), retries 1 and 2. -/
theorem C7_witness :
    (1 : ℚ) ≤ sampleProvider.backoff_multiplier ∧ (1 : Nat) ≤ 2 ∧
    sampleEvent.retry_count < sampleProvider.max_retries ∧
    (backoffDelay sampleProvider 1 ≤ backoffDelay sampleProvider 2 ∧
     backoffDelay sampleProvider 2 ≤ ((sampleProvider.max_backoff_seconds : ℚ)) ∧
     (sampleEvent.schedule_retry sampleProvider 3).2.next_retry_at =
       some (3 + backoffDelay sampleProvider (sampleEvent.retry_count + 1))) :=
  ⟨by norm_num [sampleProvider], by decide, by decide,
   C7_backoff_monotone_amended sampleProvider (by norm_num [sampleProvider]) 1 2 (by decide)
     sampleEvent 3 (by decide)⟩

/-! ## Theorems: webhook processing -/

/-- C2 (counterexample): an unknown `event_type` (`user.unknown`) for the
known `user_service` provider leaves the event with status `retry` and
`retry_count = 1` after the trace
`pending -> processing -> failed -> retry`, and the handler reports
`retry_scheduled` — contradicting the claim that no retry is scheduled,
`retry_count` stays 0 and the status never becomes `retry`. -/
theorem C2_counterexample :
    ((handle_user_service_webhook trivialHandlers 0 sampleStore unknownTypePayload
        (some sampleRequest)).toOption.map
      (fun x => (x.1.status,
        x.2.events.map (fun e => (e.status, e.retry_count, e.history))))) =
    some ("retry_scheduled",
      [(WStatus.retry, 1,
        [WStatus.pending, WStatus.processing, WStatus.failed, WStatus.retry])]) := rfl

/-- C2 (amended): for a webhook payload whose `event_type` is unknown for
the known `user_service` provider (with `max_retries ≥ 1` and a fresh
`event_id`), processing marks the event failed and then immediately
schedules a retry like any other handler failure: the stored event ends
with status `retry`, `retry_count = 1`, trace
`pending -> processing -> failed -> retry`, and the handler returns
`retry_scheduled`. -/
theorem C2_unknown_event_type_amended (H : ServiceHandlers) (now : ℚ)
    (st : WebhookStore) (event_data : JsonVal) (r : RequestInfo)
    (p : IntegrationProviderRec) (et : String)
    (hp : getProvider st "user_service" = Except.ok p)
    (hmr : 1 ≤ p.max_retries)
    (het : event_data.getStr "event_type" = some et)
    (hunk : et ∉ userServiceEventTypes)
    (hdup : st.events.any (fun e => e.event_id = event_data.getStr "event_id") = false) :
    handle_user_service_webhook H now st event_data (some r) =
      Except.ok ({ status := "retry_scheduled", message := "Event scheduled for retry" },
        { st with
          events := st.events ++
            [{ pk := st.nextPk, provider_name := p.name,
               event_type := some et, event_id := event_data.getStr "event_id",
               organization_id := event_data.getStr "organization_id",
               data := event_data.getObjD "data", metadata := event_data.getObjD "metadata",
               source_ip := r.remote_addr, headers := r.headers,
               status := WStatus.retry, retry_count := 1,
               error_message := "Unknown event type: " ++ et,
               processed_at := some now,
               next_retry_at := some (now + backoffDelay p 1),
               history := [WStatus.pending, WStatus.processing, WStatus.failed,
                           WStatus.retry] }],
          nextPk := st.nextPk + 1 }) := by
  have h0 : 0 < p.max_retries := hmr
  unfold handle_user_service_webhook handle_service_webhook
  rw [hp]
  simp only [bind, Except.bind, hdup, Bool.false_eq_true, if_false]
  unfold processCreatedEvent dispatchEvent
  rw [het]
  simp only [WebhookEventRec.mark_processing, hunk, if_false,
             WebhookEventRec.mark_failed, WebhookEventRec.schedule_retry,
             WebhookEventRec.mark_completed, backoffDelay]
  simp [h0, backoffDelay]

/-- Witness for the amended C2 at the `user.unknown` payload under the
default `user_service` policy. -/
theorem C2_witness :
    getProvider sampleStore "user_service" = Except.ok sampleProvider ∧
    handle_user_service_webhook trivialHandlers 0 sampleStore unknownTypePayload
        (some sampleRequest) =
      Except.ok ({ status := "retry_scheduled", message := "Event scheduled for retry" },
        { sampleStore with
          events := sampleStore.events ++
            [{ pk := sampleStore.nextPk, provider_name := sampleProvider.name,
               event_type := some "user.unknown",
               event_id := unknownTypePayload.getStr "event_id",
               organization_id := unknownTypePayload.getStr "organization_id",
               data := unknownTypePayload.getObjD "data",
               metadata := unknownTypePayload.getObjD "metadata",
               source_ip := sampleRequest.remote_addr, headers := sampleRequest.headers,
               status := WStatus.retry, retry_count := 1,
               error_message := "Unknown event type: " ++ "user.unknown",
               processed_at := some 0,
               next_retry_at := some (0 + backoffDelay sampleProvider 1),
               history := [WStatus.pending, WStatus.processing, WStatus.failed,
                           WStatus.retry] }],
          nextPk := sampleStore.nextPk + 1 }) :=
  ⟨rfl, C2_unknown_event_type_amended trivialHandlers 0 sampleStore unknownTypePayload
    sampleRequest sampleProvider "user.unknown" rfl (by decide) rfl (by decide) rfl⟩

/-- The status-setters of `WebhookEvent` never touch `event_id`. -/
theorem schedule_retry_event_id (e : WebhookEventRec) (p : IntegrationProviderRec)
    (now : ℚ) : (e.schedule_retry p now).2.event_id = e.event_id := by
  unfold WebhookEventRec.schedule_retry
  split
  · rfl
  · rfl

/-- The `try` block of the webhook handlers never touches the `event_id`
of the row it processes. -/
theorem processCreatedEvent_event_id (table : List String) (H : ServiceHandlers)
    (provider : IntegrationProviderRec) (now : ℚ) (event_data : JsonVal)
    (ev : WebhookEventRec) :
    (processCreatedEvent table H provider now event_data ev).2.event_id = ev.event_id := by
  simp only [processCreatedEvent]
  cases hdisp : dispatchEvent table H (event_data.getStr "event_type")
      (event_data.getObjD "data") with
  | ok v =>
    rfl
  | error m =>
    rcases hsr : (ev.mark_processing.mark_failed m now).schedule_retry provider now
      with ⟨b, ev2⟩
    have hid := schedule_retry_event_id (ev.mark_processing.mark_failed m now) provider now
    rw [hsr] at hid
    cases b
    · simpa [hsr] using hid
    · simpa [hsr] using hid

/-- C9: the `unique=True` constraint on `event_id` governs ingestion:
ingesting a payload whose `event_id` is already stored raises
`IntegrityError` (creating no second row), and whenever ingestion
succeeds on a store whose stored `event_id`s are pairwise distinct, the
resulting store's `event_id`s are again pairwise distinct. -/
theorem C9_event_id_unique (H : ServiceHandlers) (now : ℚ) (st : WebhookStore)
    (event_data : JsonVal) (request : Option RequestInfo)
    (hu : (st.events.map (fun e => e.event_id)).Nodup) :
    ((st.events.any (fun e => e.event_id = event_data.getStr "event_id") = true) →
      ∀ p r, getProvider st "user_service" = Except.ok p → request = some r →
        handle_user_service_webhook H now st event_data request =
          Except.error (PyError.integrityError
            "duplicate key value violates unique constraint webhook_events_event_id_key")) ∧
    (∀ resp st', handle_user_service_webhook H now st event_data request =
        Except.ok (resp, st') →
      (st'.events.map (fun e => e.event_id)).Nodup) := by
  constructor
  · intro hdup p r hp hreq
    subst hreq
    unfold handle_user_service_webhook handle_service_webhook
    rw [hp]
    simp [bind, Except.bind, hdup]
  · intro resp st' hok
    unfold handle_user_service_webhook handle_service_webhook at hok
    cases hp : getProvider st "user_service" with
    | error e =>
      rw [hp] at hok
      simp [bind, Except.bind] at hok
    | ok p =>
      rw [hp] at hok
      cases request with
      | none => simp [bind, Except.bind] at hok
      | some r =>
        simp only [bind, Except.bind] at hok
        by_cases hdup : st.events.any (fun e => e.event_id = event_data.getStr "event_id") = true
        · rw [if_pos hdup] at hok
          simp at hok
        · rw [if_neg hdup] at hok
          simp only [Except.ok.injEq, Prod.mk.injEq] at hok
          rcases hok with ⟨-, hst⟩
          subst hst
          simp only [List.map_append, List.map_cons, List.map_nil]
          rw [List.nodup_append]
          refine ⟨hu, List.nodup_singleton _, ?_⟩
          intro a ha hb
          simp only [List.mem_singleton] at hb
          subst hb
          rw [processCreatedEvent_event_id] at ha
          simp only [List.any_eq_true, decide_eq_true_eq, not_exists, not_and] at hdup
          simp only [List.mem_map] at ha
          rcases ha with ⟨e, he, hid⟩
          exact hdup e he (by simpa using hid)

/-- Witness for C9: a re-delivery of `event_id = "evt-7"` against a store
already holding that event is rejected with `IntegrityError`. -/
theorem C9_witness :
    (dupStore.events.map (fun e => e.event_id)).Nodup ∧
    handle_user_service_webhook trivialHandlers 0 dupStore unknownTypePayload
        (some sampleRequest) =
      Except.error (PyError.integrityError
        "duplicate key value violates unique constraint webhook_events_event_id_key") :=
  ⟨by decide,
   (C9_event_id_unique trivialHandlers 0 dupStore unknownTypePayload (some sampleRequest)
      (by decide)).1 rfl sampleProvider sampleRequest rfl rfl⟩

/-- C6 (code evaluated at the failing input): re-submitting a completed
webhook event to `process_webhook_event` has no idempotency guard — the
task re-enters the provider dispatch (which raises `AttributeError`
because the task passes `request=None`), and after the Celery retries
are exhausted it overwrites the completed event to `failed` with a fresh
`processed_at`, changing its terminal state. -/
theorem C6_reprocessing_completed_event_mutates :
    completedEvent.status = WStatus.completed ∧
    completedEvent.processed_at = some 100 ∧
    (process_webhook_event_driver trivialHandlers 200 1 completedEventStore).events.map
      (fun e => e.status) = [WStatus.failed] ∧
    (process_webhook_event_driver trivialHandlers 200 1 completedEventStore).events.map
      (fun e => e.processed_at) = [some 200] ∧
    (process_webhook_event_driver trivialHandlers 200 1 completedEventStore).events.map
      (fun e => e.error_message) =
      ["Max retries exceeded: NoneType object has no attribute META"] ∧
    ¬ (WStatus.failed = WStatus.completed) :=
  ⟨rfl, rfl, rfl, rfl, rfl, by decide⟩

/-! ## Theorems: outbound API client -/

/-- C4 (counterexample): with the shared `external_api` breaker open and
inside its timeout window, `make_request` raises
`CircuitBreakerOpenError` before any `ExternalAPICall` row is created,
so no record for that failing call is marked failed — there is no record
at all. -/
theorem C4_counterexample :
    (make_request "user_service" userBase 10 10 10 "GET" "/users"
      (NetResult.exn "connection error") openBreakerState).1 =
      Except.error (APIError.circuitBreakerOpen "external_api") ∧
    (make_request "user_service" userBase 10 10 10 "GET" "/users"
      (NetResult.exn "connection error") openBreakerState).2.apiCalls = [] :=
  ⟨rfl, rfl⟩

/-- C4 (amended): for every outbound call that the circuit breaker lets
through and whose request fails (transport error or non-2xx status), the
`ExternalAPICall` record is finalized as `failed` with the error message
and the computed `duration_ms`, and the error is propagated unchanged to
the caller; when the breaker is open, `CircuitBreakerOpenError`
propagates before any record is created. -/
theorem C4_failed_call_marked (client_provider base_url : String) (t : Int)
    (startT endT : ℚ) (method endpoint : String) (net : NetResult) (st : APISysState)
    (msg : String) (hnet : raise_for_status net = Except.error msg)
    (hgate : ¬ (CircuitBreaker.state (cacheGet st.cbCache external_api_breaker_name) =
                  CBState.open_ ∧
                CircuitBreaker.should_attempt_reset external_api_breaker_cfg
                  (cacheGet st.cbCache external_api_breaker_name) t = false)) :
    (make_request client_provider base_url t startT endT method endpoint net st).1 =
      Except.error (APIError.upstream msg) ∧
    (make_request client_provider base_url t startT endT method endpoint net st).2.apiCalls =
      st.apiCalls ++
        [{ pk := st.nextPk, provider_name := client_provider,
           endpoint := base_url ++ endpoint, method := method,
           status := APICallStatus.failed, started_at := startT,
           completed_at := some endT,
           duration_ms := some (pyInt ((endT - startT) * 1000)),
           response_status := none, error_message := msg }] := by
  simp only [make_request]
  by_cases h1 : CircuitBreaker.state (cacheGet st.cbCache external_api_breaker_name) =
      CBState.open_
  · have h2 : CircuitBreaker.should_attempt_reset external_api_breaker_cfg
        (cacheGet st.cbCache external_api_breaker_name) t = true := by
      rcases Bool.dichotomy (CircuitBreaker.should_attempt_reset external_api_breaker_cfg
        (cacheGet st.cbCache external_api_breaker_name) t) with hb | hb
      · exact absurd ⟨h1, hb⟩ hgate
      · exact hb
    rw [if_pos h1, if_pos h2]
    constructor <;>
      simp [make_request_exec, make_request_inner, hnet, APICallRec.mark_in_progress,
            APICallRec.mark_failed]
  · rw [if_neg h1]
    constructor <;>
      simp [make_request_exec, make_request_inner, hnet, APICallRec.mark_in_progress,
            APICallRec.mark_failed]

/-- Witness for the amended C4: a transport failure from the initial
(closed-breaker) state is recorded as a failed call and re-raised. -/
theorem C4_witness :
    raise_for_status (NetResult.exn "boom") = Except.error "boom" ∧
    (make_request "user_service" userBase 0 0 1 "GET" "/users"
      (NetResult.exn "boom") emptyAPIState).1 = Except.error (APIError.upstream "boom") ∧
    (make_request "user_service" userBase 0 0 1 "GET" "/users"
      (NetResult.exn "boom") emptyAPIState).2.apiCalls =
      emptyAPIState.apiCalls ++
        [{ pk := emptyAPIState.nextPk, provider_name := "user_service",
           endpoint := userBase ++ "/users", method := "GET",
           status := APICallStatus.failed, started_at := 0,
           completed_at := some 1,
           duration_ms := some (pyInt (((1 : ℚ) - 0) * 1000)),
           response_status := none, error_message := "boom" }] :=
  ⟨rfl, (C4_failed_call_marked "user_service" userBase 0 0 1 "GET" "/users"
    (NetResult.exn "boom") emptyAPIState "boom" rfl (by decide)).1,
   (C4_failed_call_marked "user_service" userBase 0 0 1 "GET" "/users"
    (NetResult.exn "boom") emptyAPIState "boom" rfl (by decide)).2⟩

/-- C5 (code evaluated at the failing input): all clients share the one
breaker named `external_api` hardcoded in the decorator (the
per-provider `self.circuit_breaker` is never used), so three failures of
the payment-service client open the breaker consulted for a
user-service call, which is then rejected with `CircuitBreakerOpenError`
even though the same call from a clean state succeeds. -/
theorem C5_shared_breaker_blocks_other_provider :
    (make_request "user_service" userBase 10 10 10 "GET" "/users"
      (NetResult.response 200 JsonVal.null)
      ((make_request "payment_service" paymentBase 2 2 2 "POST" "/payments"
        (NetResult.exn "connection refused")
        ((make_request "payment_service" paymentBase 1 1 1 "POST" "/payments"
          (NetResult.exn "connection refused")
          ((make_request "payment_service" paymentBase 0 0 0 "POST" "/payments"
            (NetResult.exn "connection refused")
            emptyAPIState).2)).2)).2)).1 =
      Except.error (APIError.circuitBreakerOpen "external_api") ∧
    (make_request "user_service" userBase 10 10 10 "GET" "/users"
      (NetResult.response 200 JsonVal.null) emptyAPIState).1 = Except.ok JsonVal.null :=
  ⟨rfl, rfl⟩

end TenantSaaS
